import Mathlib

/-!
Verification development for the pynes-emu 6502 emulator core.

The definitions below are a shallow embedding of `pynes_emu/cpu.py`,
`pynes_emu/models.py`, `pynes_emu/memory.py`, `pynes_emu/bus.py`,
`pynes_emu/utils.py` and `pynes_emu/cartridge_reader.py`.  Python integers
are unbounded, so registers and flags are `Nat`/`Int` with the exact masks
the source applies (and no other masks).  Python statements that raise an
exception are modelled by an error result that carries the state of the
emulator at the moment the exception is raised.
-/

namespace PynesEmu

/-- Python `v & 0xFF` (two's-complement mask of a possibly negative int to
8 bits); this is what the register setters and `Memory.__setitem__` apply. -/
def mask8 (v : Int) : Nat := (v % 256).toNat

/-- Python `v >> n` on an int: arithmetic shift, i.e. floor division by `2 ^ n`
(for negative `v` Python floors, e.g. `(-5) >> 7 = -1`). -/
def pyShr (v : Int) (n : Nat) : Int := Int.fdiv v (2 ^ n)

/-- Python `v << n` on an int: multiplication by `2 ^ n`. -/
def pyShl (v : Int) (n : Nat) : Int := v * 2 ^ n

/-- The eight CPU status flags (`models.py`, `ProcessorStatus`).  The Python
dataclass stores plain ints and several handlers assign values outside
`{0, 1}` (for example `N = result >> 7` with an unmasked or negative
`result`), so the fields are `Int`.  The unused flag `_` is named `U`. -/
structure ProcessorStatus where
  N : Int := 0
  V : Int := 0
  U : Int := 0
  B : Int := 0
  D : Int := 0
  I : Int := 0
  Z : Int := 0
  C : Int := 0
deriving DecidableEq

/-- ProcessorStatus.to_int: pack the flags into a byte in NV_BDIZC order,
using Python `<<` and `|` (left associated, exactly as the source chains
them). -/
def ProcessorStatus.to_int (p : ProcessorStatus) : Int :=
  Int.lor (Int.lor (Int.lor (Int.lor (Int.lor (Int.lor (Int.lor
    (pyShl p.N 7) (pyShl p.V 6)) (pyShl p.U 5)) (pyShl p.B 4))
    (pyShl p.D 3)) (pyShl p.I 2)) (pyShl p.Z 1)) p.C

/-- ProcessorStatus.from_int: mask the value with `& 0xFF`, then extract each
bit with `(value >> k) & 1`. -/
def ProcessorStatus.from_int (value : Int) : ProcessorStatus :=
  let v : Nat := mask8 value
  { N := (v / 2 ^ 7) % 2
    V := (v / 2 ^ 6) % 2
    U := (v / 2 ^ 5) % 2
    B := (v / 2 ^ 4) % 2
    D := (v / 2 ^ 3) % 2
    I := (v / 2 ^ 2) % 2
    Z := (v / 2 ^ 1) % 2
    C := v % 2 }

/-- CPU-visible memory (`memory.py`, `Memory`, with `base_address = 0` as
wired by `computer.py`): a byte store indexed by absolute address. -/
def Mem := Nat → Nat

/-- Memory.__setitem__ with an integer key: stores `value & 0xFF`. -/
def memWrite (m : Mem) (addr : Nat) (value : Int) : Mem :=
  fun a => if a = addr then mask8 value else m a

/-- Memory.__getitem__ with a `(address, 2)` key: a little-endian 16-bit read,
`((hi << 8) + lo) & 0xFFFF`. -/
def memRead16 (m : Mem) (addr : Nat) : Nat :=
  (m (addr + 1) * 256 + m addr) % 65536

/-- utils.address_to_big_endian: swap the two bytes of a 16-bit quantity. -/
def address_to_big_endian (data : Nat) : Nat :=
  let data_lo := data % 256
  let data_hi := (data / 256) % 256
  data_lo * 256 + data_hi

/-- utils.signed_8_bit_to_int: interpret a byte as a signed 8-bit offset.
This helper exists in the source but no code path calls it. -/
def signed_8_bit_to_int (data : Nat) : Int :=
  if data / 128 ≠ 0 then (data : Int) - 256 else data

/-- The thirteen addressing modes (`models.py`, `Addressing`). -/
inductive Addressing
  | IMMEDIATE
  | RELATIVE
  | ACCUMULATOR
  | IMPLIED
  | ZERO_PAGE
  | ZERO_PAGE_X
  | ZERO_PAGE_Y
  | ABSOLUTE
  | ABSOLUTE_X
  | ABSOLUTE_Y
  | INDIRECT
  | INDIRECT_X
  | INDIRECT_Y
deriving DecidableEq

/-- Addressing.get_addressing_data: resolve an addressing mode to the operand
value (if any) and the effective address (if any), exactly as the partial
functions in `models.py` compute them (including the missing masks in the
INDIRECT_X and INDIRECT_Y helpers). -/
def Addressing.get_addressing_data (mode : Addressing) (memory : Mem)
    (data reg_x reg_y : Nat) : Option Nat × Option Nat :=
  match mode with
  | .IMMEDIATE => (some data, none)
  | .RELATIVE => (some data, none)
  | .ACCUMULATOR => (none, none)
  | .IMPLIED => (none, none)
  | .ZERO_PAGE => (some (memory data), some data)
  | .ZERO_PAGE_X =>
      (some (memory ((data + reg_x) % 256)), some ((data + reg_x) % 256))
  | .ZERO_PAGE_Y =>
      (some (memory ((data + reg_y) % 256)), some ((data + reg_y) % 256))
  | .ABSOLUTE =>
      let data_be := address_to_big_endian data
      (some (memory data_be), some data_be)
  | .ABSOLUTE_X =>
      let data_be := address_to_big_endian data
      (some (memory (data_be + reg_x)), some (data_be + reg_x))
  | .ABSOLUTE_Y =>
      let data_be := address_to_big_endian data
      (some (memory (data_be + reg_y)), some (data_be + reg_y))
  | .INDIRECT =>
      let data_be := address_to_big_endian data
      (some (memory (memory data_be)), some (memory data_be))
  | .INDIRECT_X =>
      let address_lo := memory (data + reg_x)
      let address_hi := memory (data + reg_x + 1)
      let address := address_hi * 256 + address_lo
      (some (memory address), some address)
  | .INDIRECT_Y =>
      let address_lo := memory data + reg_y
      let address_hi := memory (data + 1)
      let address := address_hi * 256 + address_lo
      (some (memory address), some address)

/-- The 56 instruction mnemonics of the table in `models.py`. -/
inductive Instr
  | ADC | AND | ASL | BCC | BCS | BEQ | BIT | BMI | BNE | BPL | BRK | BVC | BVS
  | CLC | CLD | CLI | CLV | CMP | CPX | CPY | DEC | DEX | DEY | EOR | INC | INX
  | INY | JMP | JSR | LDA | LDX | LDY | LSR | NOP | ORA | PHA | PHP | PLA | PLP
  | ROL | ROR | RTI | RTS | SBC | SEC | SED | SEI | STA | STX | STY
  | TAX | TAY | TSX | TXA | TXS | TYA
deriving DecidableEq

/-- INSTRUCTION_SET (`models.py`): opcode byte to
(mnemonic, addressing mode, size in bytes); `none` models a `KeyError` for
a byte that is not a key of the dictionary. -/
def INSTRUCTION_SET (op : Nat) : Option (Instr × Addressing × Nat) :=
  match op with
  | 0xA9 => some (.LDA, .IMMEDIATE, 2)
  | 0xA5 => some (.LDA, .ZERO_PAGE, 2)
  | 0xB5 => some (.LDA, .ZERO_PAGE_X, 2)
  | 0xAD => some (.LDA, .ABSOLUTE, 3)
  | 0xBD => some (.LDA, .ABSOLUTE_X, 3)
  | 0xB9 => some (.LDA, .ABSOLUTE_Y, 3)
  | 0xA1 => some (.LDA, .INDIRECT_X, 2)
  | 0xB1 => some (.LDA, .INDIRECT_Y, 2)
  | 0xA2 => some (.LDX, .IMMEDIATE, 2)
  | 0xA6 => some (.LDX, .ZERO_PAGE, 2)
  | 0xB6 => some (.LDX, .ZERO_PAGE_Y, 2)
  | 0xAE => some (.LDX, .ABSOLUTE, 3)
  | 0xBE => some (.LDX, .ABSOLUTE_Y, 3)
  | 0xA0 => some (.LDY, .IMMEDIATE, 2)
  | 0xA4 => some (.LDY, .ZERO_PAGE, 2)
  | 0xB4 => some (.LDY, .ZERO_PAGE_X, 2)
  | 0xAC => some (.LDY, .ABSOLUTE, 3)
  | 0xBC => some (.LDY, .ABSOLUTE_X, 3)
  | 0x85 => some (.STA, .ZERO_PAGE, 2)
  | 0x95 => some (.STA, .ZERO_PAGE_X, 2)
  | 0x8D => some (.STA, .ABSOLUTE, 3)
  | 0x9D => some (.STA, .ABSOLUTE_X, 3)
  | 0x99 => some (.STA, .ABSOLUTE_Y, 3)
  | 0x81 => some (.STA, .INDIRECT_X, 2)
  | 0x91 => some (.STA, .INDIRECT_Y, 2)
  | 0x86 => some (.STX, .ZERO_PAGE, 2)
  | 0x96 => some (.STX, .ZERO_PAGE_Y, 2)
  | 0x8E => some (.STX, .ABSOLUTE, 3)
  | 0x84 => some (.STY, .ZERO_PAGE, 2)
  | 0x94 => some (.STY, .ZERO_PAGE_X, 2)
  | 0x8C => some (.STY, .ABSOLUTE, 3)
  | 0xAA => some (.TAX, .IMPLIED, 1)
  | 0x8A => some (.TXA, .IMPLIED, 1)
  | 0xA8 => some (.TAY, .IMPLIED, 1)
  | 0x98 => some (.TYA, .IMPLIED, 1)
  | 0xBA => some (.TSX, .IMPLIED, 1)
  | 0x9A => some (.TXS, .IMPLIED, 1)
  | 0x48 => some (.PHA, .IMPLIED, 1)
  | 0x68 => some (.PLA, .IMPLIED, 1)
  | 0x08 => some (.PHP, .IMPLIED, 1)
  | 0x28 => some (.PLP, .IMPLIED, 1)
  | 0x29 => some (.AND, .IMMEDIATE, 2)
  | 0x25 => some (.AND, .ZERO_PAGE, 2)
  | 0x35 => some (.AND, .ZERO_PAGE_X, 2)
  | 0x2D => some (.AND, .ABSOLUTE, 3)
  | 0x3D => some (.AND, .ABSOLUTE_X, 3)
  | 0x39 => some (.AND, .ABSOLUTE_Y, 3)
  | 0x21 => some (.AND, .INDIRECT_X, 2)
  | 0x31 => some (.AND, .INDIRECT_Y, 2)
  | 0x49 => some (.EOR, .IMMEDIATE, 2)
  | 0x45 => some (.EOR, .ZERO_PAGE, 2)
  | 0x55 => some (.EOR, .ZERO_PAGE_X, 2)
  | 0x4D => some (.EOR, .ABSOLUTE, 3)
  | 0x5D => some (.EOR, .ABSOLUTE_X, 3)
  | 0x59 => some (.EOR, .ABSOLUTE_Y, 3)
  | 0x41 => some (.EOR, .INDIRECT_X, 2)
  | 0x51 => some (.EOR, .INDIRECT_Y, 2)
  | 0x09 => some (.ORA, .IMMEDIATE, 2)
  | 0x05 => some (.ORA, .ZERO_PAGE, 2)
  | 0x15 => some (.ORA, .ZERO_PAGE_X, 2)
  | 0x0D => some (.ORA, .ABSOLUTE, 3)
  | 0x1D => some (.ORA, .ABSOLUTE_X, 3)
  | 0x19 => some (.ORA, .ABSOLUTE_Y, 3)
  | 0x01 => some (.ORA, .INDIRECT_X, 2)
  | 0x11 => some (.ORA, .INDIRECT_Y, 2)
  | 0x0A => some (.ASL, .ACCUMULATOR, 1)
  | 0x06 => some (.ASL, .ZERO_PAGE, 2)
  | 0x16 => some (.ASL, .ZERO_PAGE_X, 2)
  | 0x0E => some (.ASL, .ABSOLUTE, 3)
  | 0x1E => some (.ASL, .ABSOLUTE_X, 3)
  | 0x4A => some (.LSR, .ACCUMULATOR, 1)
  | 0x46 => some (.LSR, .ZERO_PAGE, 2)
  | 0x56 => some (.LSR, .ZERO_PAGE_X, 2)
  | 0x4E => some (.LSR, .ABSOLUTE, 3)
  | 0x5E => some (.LSR, .ABSOLUTE_X, 3)
  | 0x2A => some (.ROL, .ACCUMULATOR, 1)
  | 0x26 => some (.ROL, .ZERO_PAGE, 2)
  | 0x36 => some (.ROL, .ZERO_PAGE_X, 2)
  | 0x2E => some (.ROL, .ABSOLUTE, 3)
  | 0x3E => some (.ROL, .ABSOLUTE_X, 3)
  | 0x6A => some (.ROR, .ACCUMULATOR, 1)
  | 0x66 => some (.ROR, .ZERO_PAGE, 2)
  | 0x76 => some (.ROR, .ZERO_PAGE_X, 2)
  | 0x6E => some (.ROR, .ABSOLUTE, 3)
  | 0x7E => some (.ROR, .ABSOLUTE_X, 3)
  | 0x69 => some (.ADC, .IMMEDIATE, 2)
  | 0x65 => some (.ADC, .ZERO_PAGE, 2)
  | 0x75 => some (.ADC, .ZERO_PAGE_X, 2)
  | 0x6D => some (.ADC, .ABSOLUTE, 3)
  | 0x7D => some (.ADC, .ABSOLUTE_X, 3)
  | 0x79 => some (.ADC, .ABSOLUTE_Y, 3)
  | 0x61 => some (.ADC, .INDIRECT_X, 2)
  | 0x71 => some (.ADC, .INDIRECT_Y, 2)
  | 0xE9 => some (.SBC, .IMMEDIATE, 2)
  | 0xE5 => some (.SBC, .ZERO_PAGE, 2)
  | 0xF5 => some (.SBC, .ZERO_PAGE_X, 2)
  | 0xED => some (.SBC, .ABSOLUTE, 3)
  | 0xFD => some (.SBC, .ABSOLUTE_X, 3)
  | 0xF9 => some (.SBC, .ABSOLUTE_Y, 3)
  | 0xE1 => some (.SBC, .INDIRECT_X, 2)
  | 0xF1 => some (.SBC, .INDIRECT_Y, 2)
  | 0xE8 => some (.INX, .IMPLIED, 1)
  | 0xC8 => some (.INY, .IMPLIED, 1)
  | 0xCA => some (.DEX, .IMPLIED, 1)
  | 0x88 => some (.DEY, .IMPLIED, 1)
  | 0xE6 => some (.INC, .ZERO_PAGE, 2)
  | 0xF6 => some (.INC, .ZERO_PAGE_X, 2)
  | 0xEE => some (.INC, .ABSOLUTE, 3)
  | 0xFE => some (.INC, .ABSOLUTE_X, 3)
  | 0xC6 => some (.DEC, .ZERO_PAGE, 2)
  | 0xD6 => some (.DEC, .ZERO_PAGE_X, 2)
  | 0xCE => some (.DEC, .ABSOLUTE, 3)
  | 0xDE => some (.DEC, .ABSOLUTE_X, 3)
  | 0xC9 => some (.CMP, .IMMEDIATE, 2)
  | 0xC5 => some (.CMP, .ZERO_PAGE, 2)
  | 0xD5 => some (.CMP, .ZERO_PAGE_X, 2)
  | 0xCD => some (.CMP, .ABSOLUTE, 3)
  | 0xDD => some (.CMP, .ABSOLUTE_X, 3)
  | 0xD9 => some (.CMP, .ABSOLUTE_Y, 3)
  | 0xC1 => some (.CMP, .INDIRECT_X, 2)
  | 0xD1 => some (.CMP, .INDIRECT_Y, 2)
  | 0xE0 => some (.CPX, .IMMEDIATE, 2)
  | 0xE4 => some (.CPX, .ZERO_PAGE, 2)
  | 0xEC => some (.CPX, .ABSOLUTE, 3)
  | 0xC0 => some (.CPY, .IMMEDIATE, 2)
  | 0xC4 => some (.CPY, .ZERO_PAGE, 2)
  | 0xCC => some (.CPY, .ABSOLUTE, 3)
  | 0x90 => some (.BCC, .RELATIVE, 2)
  | 0xB0 => some (.BCS, .RELATIVE, 2)
  | 0xF0 => some (.BEQ, .RELATIVE, 2)
  | 0x30 => some (.BMI, .RELATIVE, 2)
  | 0xD0 => some (.BNE, .RELATIVE, 2)
  | 0x10 => some (.BPL, .RELATIVE, 2)
  | 0x50 => some (.BVC, .RELATIVE, 2)
  | 0x70 => some (.BVS, .RELATIVE, 2)
  | 0x18 => some (.CLC, .IMPLIED, 1)
  | 0x38 => some (.SEC, .IMPLIED, 1)
  | 0x58 => some (.CLI, .IMPLIED, 1)
  | 0x78 => some (.SEI, .IMPLIED, 1)
  | 0xB8 => some (.CLV, .IMPLIED, 1)
  | 0xD8 => some (.CLD, .IMPLIED, 1)
  | 0xF8 => some (.SED, .IMPLIED, 1)
  | 0x00 => some (.BRK, .IMPLIED, 1)
  | 0x40 => some (.RTI, .IMPLIED, 1)
  | 0x60 => some (.RTS, .IMPLIED, 1)
  | 0x20 => some (.JSR, .ABSOLUTE, 3)
  | 0x4C => some (.JMP, .ABSOLUTE, 3)
  | 0x6C => some (.JMP, .INDIRECT, 3)
  | 0x24 => some (.BIT, .ZERO_PAGE, 2)
  | 0x2C => some (.BIT, .ABSOLUTE, 3)
  | 0xEA => some (.NOP, .IMPLIED, 1)
  | _ => none

/-- CPU state (`cpu.py`, class `Cpu`): registers, program counter, status
flags and the attached memory.  The register properties mask writes to
8 bits; `pc` has no mask anywhere in the source, so it is a plain `Nat`. -/
structure CpuState where
  reg_a : Nat
  reg_x : Nat
  reg_y : Nat
  reg_s : Nat
  pc : Nat
  reg_p : ProcessorStatus
  mem : Mem

/-- Errors a single `run_next` can raise. -/
inductive StepErr
  | unknownOpcode (op : Nat)
  | typeError
deriving DecidableEq

/-- Result of one `run_next`: either the next state, or the exception raised
together with the state of the `Cpu` object at the moment of the raise
(mutations made before the raising statement are kept, as in Python). -/
inductive StepResult
  | ok (s : CpuState)
  | err (e : StepErr) (s : CpuState)

/-- State reached by a step, whether or not it raised. -/
def StepResult.state : StepResult → CpuState
  | .ok s => s
  | .err _ s => s

/-- Error raised by a step, if any. -/
def StepResult.errOf : StepResult → Option StepErr
  | .ok _ => none
  | .err e _ => some e

/-- Cpu._set_zero_and_negative: `Z = int(value == 0)`, `N = value >> 7`
(note: no 8-bit mask on either; `value` may be the unmasked or negative
intermediate result). -/
def set_zero_and_negative (p : ProcessorStatus) (value : Int) : ProcessorStatus :=
  { p with Z := if value = 0 then 1 else 0, N := pyShr value 7 }

/-- Cpu._push_stack: write at `0x0100 + S` (the memory write masks the value),
then `S -= 1` through the masking setter. -/
def pushStack (s : CpuState) (value : Int) : CpuState :=
  { s with mem := memWrite s.mem (0x0100 + s.reg_s) value
           reg_s := mask8 ((s.reg_s : Int) - 1) }

/-- Cpu._pop_stack: `S += 1` through the masking setter, then read at
`0x0100 + S`. -/
def popStack (s : CpuState) : CpuState × Nat :=
  let s1 := { s with reg_s := (s.reg_s + 1) % 256 }
  (s1, s1.mem (0x0100 + s1.reg_s))

/-- Dispatch of `Cpu._execute_<name>` handlers.  `data` and `address` are the
two components returned by the addressing mode; a handler that would apply
an arithmetic or subscript operation to a Python `None` returns
`.err .typeError` (those cases are unreachable through the instruction
table). -/
def executeInstr (inst : Instr) (data : Option Nat) (address : Option Nat)
    (s : CpuState) : StepResult :=
  match inst with
  | .ADC =>
      match data with
      | none => .err .typeError s
      | some data =>
          let a7 := s.reg_a / 128
          let d7 := data / 128
          let result := s.reg_a + data
          let r7 := result / 128
          let p := { s.reg_p with
                     V := if a7 = d7 ∧ a7 ≠ r7 then 1 else 0
                     C := (result / 256 : Nat) }
          .ok { s with reg_a := result % 256
                       reg_p := set_zero_and_negative p result }
  | .SBC =>
      -- _execute_SBC computes `~data + 1` and then calls `_execute_ADC(data)`
      -- with a single argument; `_execute_ADC` takes two, so the call raises
      -- TypeError before any register, flag or memory change.
      .err .typeError s
  | .AND =>
      match data with
      | none => .err .typeError s
      | some data =>
          let a := (s.reg_a &&& data) % 256
          .ok { s with reg_a := a
                       reg_p := set_zero_and_negative s.reg_p a }
  | .EOR =>
      match data with
      | none => .err .typeError s
      | some data =>
          let a := (s.reg_a ^^^ data) % 256
          .ok { s with reg_a := a
                       reg_p := set_zero_and_negative s.reg_p a }
  | .ORA =>
      match data with
      | none => .err .typeError s
      | some data =>
          let a := (s.reg_a ||| data) % 256
          .ok { s with reg_a := a
                       reg_p := set_zero_and_negative s.reg_p a }
  | .ASL =>
      match address with
      | some address =>
          match data with
          | none => .err .typeError s
          | some data =>
              let result := data * 2
              let p := { s.reg_p with C := (data / 128 : Nat) }
              .ok { s with mem := memWrite s.mem address result
                           reg_p := set_zero_and_negative p result }
      | none =>
          let result := s.reg_a * 2
          let p := { s.reg_p with C := (result / 256 : Nat) }
          .ok { s with reg_a := result % 256
                       reg_p := set_zero_and_negative p result }
  | .LSR =>
      match address with
      | some address =>
          match data with
          | none => .err .typeError s
          | some data =>
              let result := data / 2
              let p := { s.reg_p with C := (data % 2 : Nat) }
              .ok { s with mem := memWrite s.mem address result
                           reg_p := set_zero_and_negative p result }
      | none =>
          let result := s.reg_a / 2
          let p := { s.reg_p with C := (s.reg_a % 2 : Nat) }
          .ok { s with reg_a := result % 256
                       reg_p := set_zero_and_negative p result }
  | .ROL =>
      match address with
      | some address =>
          match data with
          | none => .err .typeError s
          | some data =>
              let result : Int := (data * 2 : Nat) + s.reg_p.C
              let p := { s.reg_p with C := (data / 128 : Nat) }
              .ok { s with mem := memWrite s.mem address result
                           reg_p := set_zero_and_negative p result }
      | none =>
          let result : Int := (s.reg_a * 2 : Nat) + s.reg_p.C
          let p := { s.reg_p with C := pyShr result 8 }
          .ok { s with reg_a := mask8 result
                       reg_p := set_zero_and_negative p result }
  | .ROR =>
      match address with
      | some address =>
          match data with
          | none => .err .typeError s
          | some data =>
              let result : Int := (data / 2 : Nat) + pyShl s.reg_p.C 7
              let p := { s.reg_p with C := (data % 2 : Nat) }
              .ok { s with mem := memWrite s.mem address result
                           reg_p := set_zero_and_negative p result }
      | none =>
          let result : Int := (s.reg_a / 2 : Nat) + pyShl s.reg_p.C 7
          let p := { s.reg_p with C := (s.reg_a % 2 : Nat) }
          .ok { s with reg_a := mask8 result
                       reg_p := set_zero_and_negative p result }
  | .BCC =>
      match data with
      | none => .err .typeError s
      | some data =>
          if s.reg_p.C = 0 then .ok { s with pc := s.pc + data } else .ok s
  | .BCS =>
      match data with
      | none => .err .typeError s
      | some data =>
          if s.reg_p.C = 0 then .ok s else .ok { s with pc := s.pc + data }
  | .BNE =>
      match data with
      | none => .err .typeError s
      | some data =>
          if s.reg_p.Z = 0 then .ok { s with pc := s.pc + data } else .ok s
  | .BEQ =>
      match data with
      | none => .err .typeError s
      | some data =>
          if s.reg_p.Z = 0 then .ok s else .ok { s with pc := s.pc + data }
  | .BIT =>
      match data with
      | none => .err .typeError s
      | some data =>
          let result := s.reg_a &&& data
          .ok { s with reg_p := { s.reg_p with
                                  V := (data / 64 : Nat)
                                  N := (result / 128 : Nat)
                                  Z := if result = 0 then 1 else 0 } }
  | .BMI =>
      match data with
      | none => .err .typeError s
      | some data =>
          if s.reg_p.N = 0 then .ok s else .ok { s with pc := s.pc + data }
  | .BPL =>
      match data with
      | none => .err .typeError s
      | some data =>
          if s.reg_p.N = 0 then .ok { s with pc := s.pc + data } else .ok s
  | .BVC =>
      match data with
      | none => .err .typeError s
      | some data =>
          if s.reg_p.V = 0 then .ok { s with pc := s.pc + data } else .ok s
  | .BVS =>
      match data with
      | none => .err .typeError s
      | some data =>
          if s.reg_p.V = 0 then .ok s else .ok { s with pc := s.pc + data }
  | .CLC => .ok { s with reg_p := { s.reg_p with C := 0 } }
  | .SEC => .ok { s with reg_p := { s.reg_p with C := 1 } }
  | .CLD => .ok { s with reg_p := { s.reg_p with D := 0 } }
  | .SED => .ok { s with reg_p := { s.reg_p with D := 1 } }
  | .CLI => .ok { s with reg_p := { s.reg_p with I := 0 } }
  | .SEI => .ok { s with reg_p := { s.reg_p with I := 1 } }
  | .CLV => .ok { s with reg_p := { s.reg_p with V := 0 } }
  | .CMP =>
      match data with
      | none => .err .typeError s
      | some data =>
          let result : Int := (s.reg_a : Int) - data
          let p := { s.reg_p with C := if 0 ≤ result then (1 : Int) else 0 }
          .ok { s with reg_p := set_zero_and_negative p result }
  | .CPX =>
      match data with
      | none => .err .typeError s
      | some data =>
          let result : Int := (s.reg_x : Int) - data
          let p := { s.reg_p with C := if 0 ≤ result then (1 : Int) else 0 }
          .ok { s with reg_p := set_zero_and_negative p result }
  | .CPY =>
      match data with
      | none => .err .typeError s
      | some data =>
          let result : Int := (s.reg_y : Int) - data
          let p := { s.reg_p with C := if 0 ≤ result then (1 : Int) else 0 }
          .ok { s with reg_p := set_zero_and_negative p result }
  | .DEC =>
      match data, address with
      | some data, some address =>
          let result : Int := (data : Int) - 1
          .ok { s with mem := memWrite s.mem address result
                       reg_p := set_zero_and_negative s.reg_p result }
      | _, _ => .err .typeError s
  | .DEX =>
      let x := mask8 ((s.reg_x : Int) - 1)
      .ok { s with reg_x := x
                   reg_p := set_zero_and_negative s.reg_p x }
  | .DEY =>
      let y := mask8 ((s.reg_y : Int) - 1)
      .ok { s with reg_y := y
                   reg_p := set_zero_and_negative s.reg_p y }
  | .INC =>
      match data, address with
      | some data, some address =>
          let result : Int := (data : Int) + 1
          .ok { s with mem := memWrite s.mem address result
                       reg_p := set_zero_and_negative s.reg_p result }
      | _, _ => .err .typeError s
  | .INX =>
      -- _execute_INX only increments; it does not call _set_zero_and_negative.
      .ok { s with reg_x := (s.reg_x + 1) % 256 }
  | .INY =>
      -- _execute_INY only increments; it does not call _set_zero_and_negative.
      .ok { s with reg_y := (s.reg_y + 1) % 256 }
  | .JMP =>
      -- _execute_JMP assigns `self.pc = data`, the first component returned
      -- by the addressing mode (the byte read at the effective address),
      -- not the effective address itself.
      match data with
      | none => .err .typeError s
      | some data => .ok { s with pc := data }
  | .JSR =>
      match data with
      | none => .err .typeError s
      | some data =>
          -- pc is at least 3 here (a 3-byte fetch just ran), so the Nat
          -- subtraction agrees with Python.
          let result := s.pc - 1
          let hi_result := result / 256
          let lo_result := result % 256
          let s := pushStack s hi_result
          let s := pushStack s lo_result
          .ok { s with pc := data }
  | .RTS =>
      let (s1, lo) := popStack s
      let (s2, hi) := popStack s1
      .ok { s2 with pc := lo + hi * 256 + 1 }
  | .PHA => .ok (pushStack s s.reg_a)
  | .PHP => .ok (pushStack s s.reg_p.to_int)
  | .PLA =>
      let (s1, value) := popStack s
      .ok { s1 with reg_a := value % 256
                    reg_p := set_zero_and_negative s1.reg_p (value % 256) }
  | .PLP =>
      let (s1, value) := popStack s
      .ok { s1 with reg_p := ProcessorStatus.from_int value }
  | .LDA =>
      match data with
      | none => .err .typeError s
      | some data =>
          .ok { s with reg_a := data % 256
                       reg_p := set_zero_and_negative s.reg_p (data % 256) }
  | .LDX =>
      match data with
      | none => .err .typeError s
      | some data =>
          .ok { s with reg_x := data % 256
                       reg_p := set_zero_and_negative s.reg_p (data % 256) }
  | .LDY =>
      match data with
      | none => .err .typeError s
      | some data =>
          .ok { s with reg_y := data % 256
                       reg_p := set_zero_and_negative s.reg_p (data % 256) }
  | .NOP => .ok s
  | .RTI =>
      let (s1, value) := popStack s
      let s1 := { s1 with reg_p := ProcessorStatus.from_int value }
      let (s2, lo) := popStack s1
      let (s3, hi) := popStack s2
      .ok { s3 with pc := lo + hi * 256 }
  | .STA =>
      match address with
      | none => .err .typeError s
      | some address => .ok { s with mem := memWrite s.mem address s.reg_a }
  | .STX =>
      match address with
      | none => .err .typeError s
      | some address => .ok { s with mem := memWrite s.mem address s.reg_x }
  | .STY =>
      match address with
      | none => .err .typeError s
      | some address => .ok { s with mem := memWrite s.mem address s.reg_y }
  | .TAY =>
      .ok { s with reg_y := s.reg_a
                   reg_p := set_zero_and_negative s.reg_p s.reg_a }
  | .TAX =>
      .ok { s with reg_x := s.reg_a
                   reg_p := set_zero_and_negative s.reg_p s.reg_a }
  | .TSX =>
      .ok { s with reg_x := s.reg_s
                   reg_p := set_zero_and_negative s.reg_p s.reg_s }
  | .TXS => .ok { s with reg_s := s.reg_x }
  | .TXA =>
      .ok { s with reg_a := s.reg_x
                   reg_p := set_zero_and_negative s.reg_p s.reg_x }
  | .TYA =>
      .ok { s with reg_a := s.reg_y
                   reg_p := set_zero_and_negative s.reg_p s.reg_y }
  | .BRK =>
      let result := s.pc + 1
      let s := pushStack s (result / 256)
      let s := pushStack s (result % 256)
      let s := pushStack s s.reg_p.to_int
      .ok { s with reg_p := { s.reg_p with B := 1 } }

/-- The operand accumulation loop of `Cpu._fetch_next`: `size - 1` times do
`pc += 1; data = (data << 8) + memory[pc]`. -/
def fetchLoop (mem : Mem) : Nat → Nat × Nat → Nat × Nat
  | 0, pd => pd
  | n + 1, (pc, data) => fetchLoop mem n (pc + 1, data * 256 + mem (pc + 1))

/-- Cpu.run_next: fetch the opcode at `pc` (a missing table entry raises
KeyError with nothing yet modified), accumulate the operand bytes while
advancing `pc`, resolve the addressing mode and dispatch the handler. -/
def step (s : CpuState) : StepResult :=
  match INSTRUCTION_SET (s.mem s.pc) with
  | none => .err (.unknownOpcode (s.mem s.pc)) s
  | some (inst_name, addressing_mode, inst_size) =>
      let (pc1, inst_data) := fetchLoop s.mem (inst_size - 1) (s.pc, 0)
      let s := { s with pc := pc1 + 1 }
      let (data, address) :=
        addressing_mode.get_addressing_data s.mem inst_data s.reg_x s.reg_y
      executeInstr inst_name data address s

/-- Iterate `step`; an error stops the run and is returned as is. -/
def stepN : Nat → CpuState → StepResult
  | 0, s => .ok s
  | n + 1, s =>
      match step s with
      | .ok s1 => stepN n s1
      | r => r

/-- Cpu.reset: zero the registers, set `S = 0xFF`, clear the flags and load
`pc` from the 16-bit little-endian word at `0xFFFC`. -/
def resetCpu (mem : Mem) : CpuState :=
  { reg_a := 0, reg_x := 0, reg_y := 0, reg_s := 0xFF
    pc := memRead16 mem 0xFFFC
    reg_p := {}
    mem := mem }

/-- Backing store chosen by the bus mapping; `unmapped` is the Python case in
which `_get_mapped_address_and_memory` returns `None` for the memory. -/
inductive BusTarget
  | cpuMemory
  | prgRom
  | unmapped
deriving DecidableEq

/-- Bus._get_mapped_address_and_memory (`bus.py`): the mirroring rules of the
16-bit address space.  `prg_rom_len` is `len(self.cartridge_prg_rom)`. -/
def get_mapped_address_and_memory (prg_rom_len : Nat) (address : Nat) :
    Nat × BusTarget :=
  if address < 0x2000 then (address &&& 0x7FF, .cpuMemory)
  else if address < 0x4000 then (address &&& 0x2007, .unmapped)
  else if 0x8000 ≤ address ∧ prg_rom_len = 16 * 1024 then
    (address &&& 0xBFFF, .prgRom)
  else if 0x8000 ≤ address then (address, .prgRom)
  else (address, .unmapped)

/-- The bus (`bus.py`, class `Bus`): internal CPU RAM plus the cartridge PRG
ROM region.  Region-internal base-address translation is part of the region
read functions. -/
structure Bus where
  cpu_memory : Mem
  cartridge_prg_rom : Mem
  prg_rom_len : Nat

/-- Bus.__getitem__ for a single address: map, then subscript the selected
region.  In the unmapped case the returned memory is Python `None` and the
subscript raises TypeError; that is the `none` result. -/
def busRead (bus : Bus) (address : Nat) : Option Nat :=
  match get_mapped_address_and_memory bus.prg_rom_len address with
  | (a, .cpuMemory) => some (bus.cpu_memory a)
  | (a, .prgRom) => some (bus.cartridge_prg_rom a)
  | (_, .unmapped) => none

/-- Bus.__setitem__ for a single address: map, then assign into the selected
region; assigning through a `None` region raises TypeError (`none`) before
any store happens. -/
def busWrite (bus : Bus) (address : Nat) (value : Int) : Option Bus :=
  match get_mapped_address_and_memory bus.prg_rom_len address with
  | (a, .cpuMemory) =>
      some { bus with cpu_memory := memWrite bus.cpu_memory a value }
  | (a, .prgRom) =>
      some { bus with cartridge_prg_rom := memWrite bus.cartridge_prg_rom a value }
  | (_, .unmapped) => none

/-- Modelled from the spec: `cartridge_reader.py` imports `MirroringType`
from `pynes_emu/utils.py`, but `utils.py` does not define it; the spec names
the three values Horizontal, Vertical and FourScreen. -/
inductive MirroringType
  | HORIZONTAL
  | VERTICAL
  | FOUR_SCREEN
deriving DecidableEq

/-- Fields computed by CartridgeReader._parse_header. -/
structure CartridgeInfo where
  prg_rom_size : Nat
  chr_rom_size : Nat
  prg_rom_start : Nat
  chr_rom_start : Nat
  mapper_type : Nat
  mirroring_type : MirroringType
deriving DecidableEq

/-- Errors raised by CartridgeReader._parse_header. -/
inductive CartridgeError
  | invalidHeader
  | nes2NotSupported
deriving DecidableEq

def PRG_ROM_PAGE_SIZE : Nat := 16 * 1024

def CHR_ROM_PAGE_SIZE : Nat := 8 * 1024

/-- CartridgeReader._parse_header on the 16 header bytes.  Note the source
computes `skip_trainer = header[6] & 0x04` (so 0 or 4) and then
`prg_rom_start = 16 + skip_trainer * 512`. -/
def parse_header (header : List Nat) : Except CartridgeError CartridgeInfo :=
  let control_byte_1 := header.getD 6 0
  let control_byte_2 := header.getD 7 0
  if header.take 4 ≠ [0x4E, 0x45, 0x53, 0x1A] then .error .invalidHeader
  else if control_byte_2 &&& 0x0C = 0x08 then .error .nes2NotSupported
  else
    let prg_rom_size := header.getD 4 0 * PRG_ROM_PAGE_SIZE
    let chr_rom_size := header.getD 5 0 * CHR_ROM_PAGE_SIZE
    let skip_trainer := control_byte_1 &&& 0x04
    let prg_rom_start := 16 + skip_trainer * 512
    let chr_rom_start := prg_rom_start + prg_rom_size
    let mapper_type := (control_byte_1 &&& 0xF0) ||| (control_byte_2 / 16)
    let mirroring_type_value := control_byte_1 &&& 0x03
    let mirroring_type : MirroringType :=
      if mirroring_type_value = 0 then .HORIZONTAL
      else if mirroring_type_value = 1 then .VERTICAL
      else .FOUR_SCREEN
    .ok { prg_rom_size := prg_rom_size
          chr_rom_size := chr_rom_size
          prg_rom_start := prg_rom_start
          chr_rom_start := chr_rom_start
          mapper_type := mapper_type
          mirroring_type := mirroring_type }

/-- Memory image used by the end-to-end scenarios: the program bytes at
`0x8000` and the reset vector at `0xFFFC` pointing to `0x8000`, everything
else zero (fresh `Memory` cells are zero). -/
def progMem (prog : List Nat) : Mem :=
  fun a =>
    if a = 0xFFFC then 0x00
    else if a = 0xFFFD then 0x80
    else if 0x8000 ≤ a ∧ a < 0x8000 + prog.length then prog.getD (a - 0x8000) 0
    else 0

/-- Scenario C of the spec: `{0xA9, 0xFF, 0x69, 0x01}` (LDA number 0xFF;
ADC number 0x01) after reset, so all flags start at 0. -/
def adcProgramInit : CpuState := resetCpu (progMem [0xA9, 0xFF, 0x69, 0x01])

/-- Claim C1: executing ADC is claimed to compute `r = A + value + C`, set
`Z` iff `(r & 0xFF) == 0`, and on the program `{0xA9, 0xFF, 0x69, 0x01}`
with C=0 to leave A=0x00, C=1, Z=1, V=0 after two steps.  The code computes
`result = A + value` with no carry-in and passes the unmasked `result`
(here 0x100) to `_set_zero_and_negative`, so on the spec scenario itself the
emulator ends with Z = 0 (and N = 2), not Z = 1; A, C and V do match. -/
theorem C1_adc_unmasked_zero_flag :
    (stepN 2 adcProgramInit).state.reg_a = 0x00 ∧
    (stepN 2 adcProgramInit).state.reg_p.C = 1 ∧
    (stepN 2 adcProgramInit).state.reg_p.V = 0 ∧
    (stepN 2 adcProgramInit).state.reg_p.Z = 0 ∧
    (stepN 2 adcProgramInit).state.reg_p.N = 2 := by
  decide

/-- Scenario D of the spec: `{0xA2, 0x05, 0xCA, 0xD0, 0xFD}` (LDX number 5;
DEX; BNE back by 3) after reset. -/
def dexLoopInit : CpuState := resetCpu (progMem [0xA2, 0x05, 0xCA, 0xD0, 0xFD])

/-- Claim C2: a taken branch is claimed to add the operand as a signed 8-bit
offset, so the BNE of scenario D with operand 0xFD should return the PC from
0x8005 to 0x8002 and the loop should end with X=0 after 10 steps.  The
branch handlers execute `self.pc += data` with the raw operand (the helper
`signed_8_bit_to_int` is never called), so after the three steps
LDX, DEX, BNE-taken the PC is 0x8005 + 0xFD = 0x8102, not 0x8002, and the
program never loops back. -/
theorem C2_branch_adds_unsigned_operand :
    (stepN 3 dexLoopInit).state.reg_x = 4 ∧
    (stepN 3 dexLoopInit).state.pc = 0x8102 ∧
    signed_8_bit_to_int 0xFD = -3 := by
  decide

/-- Scenario E of the spec: `{0x20, 0x05, 0x80, 0x00, 0x00, 0xEA, 0x60}`
(JSR to 0x8005; the byte at 0x8005 is 0xEA) after reset. -/
def jsrProgramInit : CpuState :=
  resetCpu (progMem [0x20, 0x05, 0x80, 0x00, 0x00, 0xEA, 0x60])

/-- Claim C3: JMP and JSR are claimed to set PC to the resolved effective
address, so after JSR to 0x8005 the PC should be 0x8005.  The handlers
assign `self.pc = data`, the first component returned by the addressing
mode, which is the byte read at the effective address; after one step the
PC is therefore mem(0x8005) = 0xEA, not 0x8005.  The stack half of the
claim does hold: 0x80 then 0x02 (the bytes of 0x8002) are pushed and S
drops to 0xFD. -/
theorem C3_jsr_jumps_to_memory_value :
    (stepN 1 jsrProgramInit).state.pc = 0xEA ∧
    (stepN 1 jsrProgramInit).state.mem 0x01FF = 0x80 ∧
    (stepN 1 jsrProgramInit).state.mem 0x01FE = 0x02 ∧
    (stepN 1 jsrProgramInit).state.reg_s = 0xFD := by
  decide

/-- A state about to execute RTS (opcode 0x60) with the two stack bytes both
0xFF: the pops yield lo = hi = 0xFF. -/
def rtsOverflowInit : CpuState :=
  { reg_a := 0, reg_x := 0, reg_y := 0, reg_s := 0xFD, pc := 0x8000
    reg_p := {}
    mem := fun a =>
      if a = 0x8000 then 0x60
      else if a = 0x01FE then 0xFF
      else if a = 0x01FF then 0xFF
      else 0 }

/-- Claim C4: after every executed instruction the PC is claimed to lie in
[0, 65535].  The A, X, Y and S registers are masked by their setters, but
`pc` is never masked; `_execute_RTS` computes `pop + (pop << 8) + 1`, so
with both stack bytes 0xFF one RTS step leaves PC = 0x10000 = 65536, outside
the claimed range. -/
theorem C4_rts_pushes_pc_past_16_bits :
    (step rtsOverflowInit).state.pc = 65536 ∧
    (step rtsOverflowInit).state.reg_s = 0xFF := by
  decide

/-- A state about to execute SBC immediate (opcode 0xE9, operand 0x01). -/
def sbcProgramInit : CpuState := resetCpu (progMem [0xE9, 0x01])

/-- Claim C5: SBC is claimed to behave as ADC on the bitwise complement of
the operand with the current carry.  `_execute_SBC` computes `~data + 1`
(two's complement negation, not the complement) and then calls
`_execute_ADC(data)` with one argument, while `_execute_ADC` requires two;
every SBC execution raises TypeError instead of updating A, C, V, Z, N. -/
theorem C5_sbc_raises_type_error :
    (step sbcProgramInit).errOf = some .typeError := by
  decide

/-- A state with Z = 1 about to execute INX (opcode 0xE8) with X = 4. -/
def inxInit : CpuState :=
  { reg_a := 0, reg_x := 4, reg_y := 0, reg_s := 0xFF, pc := 0x8000
    reg_p := { Z := 1 }
    mem := fun a => if a = 0x8000 then 0xE8 else 0 }

/-- Claim C6: INX/INY are claimed to update Z and N from the 8-bit result.
The increment modulo 256 does happen, but `_execute_INX` and `_execute_INY`
never call `_set_zero_and_negative`: incrementing X from 4 to 5 leaves a
stale Z = 1 even though the result is nonzero. -/
theorem C6_inx_skips_flag_update :
    (step inxInit).state.reg_x = 5 ∧
    (step inxInit).state.reg_p.Z = 1 := by
  decide

/-- A bus with a 32 KiB PRG ROM and all-zero contents. -/
def unmappedBus : Bus :=
  { cpu_memory := fun _ => 0, cartridge_prg_rom := fun _ => 0
    prg_rom_len := 32 * 1024 }

/-- Claim C7 counterexample: a bus read at the unmapped address 0x4000 (and
at 0x2000 in the PPU range) does not return 0 — `_get_mapped_address_and_memory`
returns `None` for the region and the subscript raises TypeError — and a
write at 0x4000 likewise raises instead of being a silent no-op. -/
theorem C7_unmapped_access_counterexample :
    busRead unmappedBus 0x4000 ≠ some 0 ∧
    busRead unmappedBus 0x2000 ≠ some 0 ∧
    (busWrite unmappedBus 0x4000 7).isNone = true := by
  decide

/-- Claim C7 amended: for every address in [0x2000, 0x8000) (the PPU range
included) no region is mapped, and both a bus read and a bus write fail by
subscripting the `None` region — the read yields no byte (in particular not
0) and the write raises before any store, so RAM and PRG-ROM are untouched. -/
theorem C7_unmapped_access_raises (bus : Bus) (a : Nat) (v : Int)
    (h : 0x2000 ≤ a ∧ a < 0x8000) :
    busRead bus a = none ∧ busWrite bus a v = none := by
  obtain ⟨h1, h2⟩ := h
  unfold busRead busWrite get_mapped_address_and_memory
  rw [if_neg (by omega)]
  by_cases h3 : a < 0x4000
  · rw [if_pos h3]
    exact ⟨rfl, rfl⟩
  · rw [if_neg h3, if_neg (by rintro ⟨hc, -⟩; omega), if_neg (by omega)]
    exact ⟨rfl, rfl⟩

/-- Witness for the amended claim C7 at the concrete address 0x5000. -/
theorem C7_unmapped_access_raises_witness :
    busRead unmappedBus 0x5000 = none ∧ busWrite unmappedBus 0x5000 3 = none :=
  C7_unmapped_access_raises unmappedBus 0x5000 3 (by decide)

/-- An iNES header with magic, one PRG page, one CHR page and the trainer
bit (bit 2 of byte 6) set. -/
def trainerHeader : List Nat :=
  [0x4E, 0x45, 0x53, 0x1A, 0x01, 0x01, 0x04, 0x00, 0, 0, 0, 0, 0, 0, 0, 0]

/-- The same header with the trainer bit clear. -/
def noTrainerHeader : List Nat :=
  [0x4E, 0x45, 0x53, 0x1A, 0x01, 0x01, 0x00, 0x00, 0, 0, 0, 0, 0, 0, 0, 0]

/-- Claim C8: `prg_rom_start` is claimed to be 16 + 512 = 528 when the
trainer flag is set.  The source computes `skip_trainer = header[6] & 0x04`
(which is 4, not 1) and then `16 + skip_trainer * 512 = 2064`.  The
trainer-clear value 16 and the relation
`chr_rom_start = prg_rom_start + prg_rom_size` do hold. -/
theorem C8_trainer_offset_is_2064 :
    (parse_header trainerHeader).toOption.map CartridgeInfo.prg_rom_start =
      some 2064 ∧
    (parse_header trainerHeader).toOption.map CartridgeInfo.chr_rom_start =
      some (2064 + 16384) ∧
    (parse_header noTrainerHeader).toOption.map CartridgeInfo.prg_rom_start =
      some 16 := by
  decide

/-- Claim C9: for every ProcessorStatus whose eight flags are each 0 or 1,
packing to a byte in NV_BDIZC order and unpacking returns the same record,
the unused flag included. -/
theorem C9_status_roundtrip (p : ProcessorStatus)
    (hN : p.N = 0 ∨ p.N = 1) (hV : p.V = 0 ∨ p.V = 1) (hU : p.U = 0 ∨ p.U = 1)
    (hB : p.B = 0 ∨ p.B = 1) (hD : p.D = 0 ∨ p.D = 1) (hI : p.I = 0 ∨ p.I = 1)
    (hZ : p.Z = 0 ∨ p.Z = 1) (hC : p.C = 0 ∨ p.C = 1) :
    ProcessorStatus.from_int p.to_int = p := by
  obtain ⟨n, v, u, b, d, i, z, c⟩ := p
  simp only at hN hV hU hB hD hI hZ hC
  rcases hN with rfl | rfl <;> rcases hV with rfl | rfl <;>
    rcases hU with rfl | rfl <;> rcases hB with rfl | rfl <;>
    rcases hD with rfl | rfl <;> rcases hI with rfl | rfl <;>
    rcases hZ with rfl | rfl <;> rcases hC with rfl | rfl <;> decide

/-- Witness for claim C9 at the flag assignment N=1, V=0, unused=1, B=0,
D=1, I=0, Z=1, C=0. -/
theorem C9_status_roundtrip_witness :
    ProcessorStatus.from_int (ProcessorStatus.to_int ⟨1, 0, 1, 0, 1, 0, 1, 0⟩) =
      (⟨1, 0, 1, 0, 1, 0, 1, 0⟩ : ProcessorStatus) :=
  C9_status_roundtrip ⟨1, 0, 1, 0, 1, 0, 1, 0⟩ (Or.inr rfl) (Or.inl rfl)
    (Or.inr rfl) (Or.inl rfl) (Or.inr rfl) (Or.inl rfl) (Or.inr rfl) (Or.inl rfl)

/-- Claim C10: when the byte at PC is not a key of the instruction table,
`run_next` raises KeyError during the table lookup, before the PC is
advanced or anything else is touched; the state carried by the error is the
very state the step started from, registers, flags and memory included. -/
theorem C10_unknown_opcode_preserves_state (s : CpuState)
    (h : INSTRUCTION_SET (s.mem s.pc) = none) :
    step s = .err (.unknownOpcode (s.mem s.pc)) s := by
  unfold step
  rw [h]

/-- A state whose memory holds 0x02 everywhere; 0x02 is not an opcode of the
instruction table. -/
def unknownOpcodeState : CpuState :=
  { reg_a := 1, reg_x := 2, reg_y := 3, reg_s := 0xFF, pc := 0x8000
    reg_p := {}
    mem := fun _ => 0x02 }

/-- Witness for claim C10: stepping on the undefined opcode 0x02 returns the
unknown-opcode error together with the unchanged starting state. -/
theorem C10_unknown_opcode_preserves_state_witness :
    step unknownOpcodeState = .err (.unknownOpcode 0x02) unknownOpcodeState :=
  C10_unknown_opcode_preserves_state unknownOpcodeState rfl

end PynesEmu
